import Mathlib

/-!
Verification development for the agentbay-python-sdk repository.

The embedding models:
* a small universe of Python values (`PyVal`) with Python truthiness,
  `str`/`repr` conversion and a model of `json.dumps` that fails on
  non-serializable objects;
* `wrapped_generate_content` from `src/agentbay/llms/gemini/chat.py`:
  given the original implementation (a function parameter), it produces
  the span (name, attributes in recording order, recorded exceptions,
  status) together with the call outcome;
* the `AgentBay` client lifecycle from `src/agentbay/client.py`, with the
  process-global singleton passed as explicit state and constructor side
  effects recorded as an effect trace.
-/

namespace Agentbay

mutual

/-- Python values as used by the instrumentation layer: `None`, strings,
integers, lists, dicts with string keys, and opaque objects carrying only
their `str` representation (these are the values `json.dumps` rejects). -/
inductive PyVal : Type where
  | pnone : PyVal
  | pstr : String → PyVal
  | pint : Int → PyVal
  | plist : PyValList → PyVal
  | pdict : PyValDict → PyVal
  | pobj : String → PyVal

/-- A Python list of `PyVal`s. -/
inductive PyValList : Type where
  | nil : PyValList
  | cons : PyVal → PyValList → PyValList

/-- A Python dict from strings to `PyVal`s, in insertion order. -/
inductive PyValDict : Type where
  | nil : PyValDict
  | cons : String → PyVal → PyValDict → PyValDict

end

/-- Length of a Python list (Python `len`). -/
def PyValList.length : PyValList → Nat
  | .nil => 0
  | .cons _ tl => tl.length + 1

/-- Python truthiness: `None`, empty strings, `0`, and empty containers are
falsy; plain objects are truthy. -/
def truthy : PyVal → Bool
  | .pnone => false
  | .pstr s => if s = "" then false else true
  | .pint n => if n = 0 then false else true
  | .plist .nil => false
  | .plist (.cons _ _) => true
  | .pdict .nil => false
  | .pdict (.cons _ _ _) => true
  | .pobj _ => true

/-- Minimal JSON string escaping (quote, backslash, common controls). -/
def jsonEscapeChar (c : Char) : String :=
  if c = '\"' then "\\\""
  else if c = '\\' then "\\\\"
  else if c = '\n' then "\\n"
  else if c = '\t' then "\\t"
  else if c = '\r' then "\\r"
  else String.singleton c

/-- Escape a whole string for inclusion in a JSON document. -/
def jsonEscape (s : String) : String :=
  String.join (s.toList.map jsonEscapeChar)

mutual

/-- Model of Python `json.dumps` with default separators: `none` models the
`TypeError` raised on a non-serializable object anywhere in the value. -/
def jsonDumps : PyVal → Option String
  | .pnone => some "null"
  | .pstr s => some ("\"" ++ jsonEscape s ++ "\"")
  | .pint n => some (toString n)
  | .plist xs =>
      match jsonDumpsList xs with
      | some s => some ("[" ++ s ++ "]")
      | none => none
  | .pdict xs =>
      match jsonDumpsDict xs with
      | some s => some ("\x7b" ++ s ++ "\x7d")
      | none => none
  | .pobj _ => none

/-- `json.dumps` of the comma-separated items of a list. -/
def jsonDumpsList : PyValList → Option String
  | .nil => some ""
  | .cons v .nil => jsonDumps v
  | .cons v (.cons w tl) =>
      match jsonDumps v, jsonDumpsList (.cons w tl) with
      | some sv, some st => some (sv ++ ", " ++ st)
      | _, _ => none

/-- `json.dumps` of the comma-separated entries of a dict. -/
def jsonDumpsDict : PyValDict → Option String
  | .nil => some ""
  | .cons k v .nil =>
      match jsonDumps v with
      | some sv => some ("\"" ++ jsonEscape k ++ "\": " ++ sv)
      | none => none
  | .cons k v (.cons k2 v2 tl) =>
      match jsonDumps v, jsonDumpsDict (.cons k2 v2 tl) with
      | some sv, some st => some ("\"" ++ jsonEscape k ++ "\": " ++ sv ++ ", " ++ st)
      | _, _ => none

end

mutual

/-- Model of Python `repr` on our value universe (strings are quoted with
single quotes; containers print their items by `repr`). -/
def pyRepr : PyVal → String
  | .pnone => "None"
  | .pstr s => "\x27" ++ s ++ "\x27"
  | .pint n => toString n
  | .plist xs => "[" ++ pyReprList xs ++ "]"
  | .pdict xs => "\x7b" ++ pyReprDict xs ++ "\x7d"
  | .pobj r => r

/-- `repr` of the comma-separated items of a list. -/
def pyReprList : PyValList → String
  | .nil => ""
  | .cons v .nil => pyRepr v
  | .cons v (.cons w tl) => pyRepr v ++ ", " ++ pyReprList (.cons w tl)

/-- `repr` of the comma-separated entries of a dict. -/
def pyReprDict : PyValDict → String
  | .nil => ""
  | .cons k v .nil => "\x27" ++ k ++ "\x27: " ++ pyRepr v
  | .cons k v (.cons k2 v2 tl) =>
      "\x27" ++ k ++ "\x27: " ++ pyRepr v ++ ", " ++ pyReprDict (.cons k2 v2 tl)

end

/-- Model of Python `str`: identity on strings, `repr` otherwise. -/
def pyStr : PyVal → String
  | .pstr s => s
  | .pnone => pyRepr .pnone
  | .pint n => pyRepr (.pint n)
  | .plist xs => pyRepr (.plist xs)
  | .pdict xs => pyRepr (.pdict xs)
  | .pobj r => pyRepr (.pobj r)

/-- The `try json.dumps(v) ... except: str(v)` idiom used throughout
`chat.py`: structured serialization with string fallback. -/
def dumpsOrStr (v : PyVal) : String :=
  (jsonDumps v).getD (pyStr v)

/-- Keyword arguments of a Python call, in order. -/
def KwArgs : Type := List (String × PyVal)

/-- Python `kwargs.get(key, default)`. -/
def kwGet : KwArgs → String → PyVal → PyVal
  | [], _, d => d
  | (k, v) :: tl, key, d => if k = key then v else kwGet tl key d

/-- A Python exception: its type name and its message (`str(e)`). -/
structure PyExc where
  ty : String
  msg : String

/-- Span attribute values: strings or (non-negative) integers, the two kinds
`chat.py` sets. -/
inductive AttrVal : Type where
  | str : String → AttrVal
  | nat : Nat → AttrVal

/-- Span status as set by `chat.py`: OK on success, ERROR with the
exception's message on failure. -/
inductive SpanStatus : Type where
  | unset : SpanStatus
  | ok : SpanStatus
  | error : String → SpanStatus

/-- The span produced by one intercepted call: its name, the attributes in
the order they were set, the exceptions recorded on it, and its status. -/
structure Span where
  name : String
  attributes : List (String × AttrVal)
  recorded_exceptions : List PyExc
  status : SpanStatus

/-- First attribute value recorded under a key, `none` when the key was
never set. -/
def lookupAttr (key : String) : List (String × AttrVal) → Option AttrVal
  | [] => none
  | (k, v) :: tl => if k = key then some v else lookupAttr key tl

/-- The receiver of `generate_content`: `getattr(self, "model_name", ...)`
may be absent. -/
structure GeminiModel where
  model_name : Option String

/-- One function-call record of a response candidate; each field models a
Python attribute that may be absent (`getattr`/`hasattr` probing). -/
structure FuncCall where
  name : Option PyVal
  arguments : Option PyVal
  response : Option PyVal
  error : Option PyVal

/-- A response candidate; `function_calls` may be absent. -/
structure Candidate where
  function_calls : Option (List FuncCall)

/-- Token-usage metadata; each counter may be absent (`hasattr` probing). -/
structure UsageMetadata where
  prompt_token_count : Option Nat
  candidates_token_count : Option Nat
  total_token_count : Option Nat

/-- A Gemini response: optional text, candidates (absent modelled as the
empty, falsy list), optional usage metadata. -/
structure GenerateContentResponse where
  text : Option String
  candidates : List Candidate
  usage_metadata : Option UsageMetadata

/-- Attributes from `tools` (`chat.py` lines 52-60): recorded only when the
value is truthy; JSON serialization for lists/dicts with string fallback;
a count only for lists. -/
def toolsAttrs (tools : PyVal) : List (String × AttrVal) :=
  if truthy tools then
    let tools_str :=
      match tools with
      | .plist _ => dumpsOrStr tools
      | .pdict _ => dumpsOrStr tools
      | _ => pyStr tools
    ("llm.request.tools", .str tools_str) ::
      (match tools with
       | .plist xs => [("llm.request.tool_count", .nat xs.length)]
       | _ => [])
  else []

/-- The dict built for one function call (`chat.py` lines 76-97): raw
`name` (or `None`), `arguments` serialized structurally with string
fallback (or `None` when absent), then `response` and `error` as strings
when present and truthy. -/
def funcDataOf (fc : FuncCall) : PyVal :=
  let argVal : PyVal :=
    match fc.arguments with
    | none => .pnone
    | some v =>
        match v with
        | .plist _ => .pstr (dumpsOrStr v)
        | .pdict _ => .pstr (dumpsOrStr v)
        | _ => .pstr (pyStr v)
  let tail0 : PyValDict :=
    match fc.error with
    | some v => if truthy v then .cons "error" (.pstr (pyStr v)) .nil else .nil
    | none => .nil
  let tail1 : PyValDict :=
    match fc.response with
    | some v => if truthy v then .cons "response" (.pstr (pyStr v)) tail0 else tail0
    | none => tail0
  .pdict (.cons "name" (fc.name.getD .pnone) (.cons "arguments" argVal tail1))

/-- The Python list `function_calls_data` of per-call dicts. -/
def funcListData : List FuncCall → PyValList
  | [] => .nil
  | fc :: tl => .cons (funcDataOf fc) (funcListData tl)

/-- Attributes for a truthy `candidate.function_calls` list (`chat.py`
lines 99-105): the serialized record list and the record count. -/
def funcCallAttrs (fcs : List FuncCall) : List (String × AttrVal) :=
  [("llm.response.function_calls", .str (dumpsOrStr (.plist (funcListData fcs)))),
   ("llm.response.function_call_count", .nat fcs.length)]

/-- Function-call attributes of the response (`chat.py` lines 70-105): only
the first candidate is consulted, and only when its `function_calls` is
present and truthy. -/
def candidateAttrs : List Candidate → List (String × AttrVal)
  | [] => []
  | c :: _ =>
      match c.function_calls with
      | some fcs => if fcs.isEmpty then [] else funcCallAttrs fcs
      | none => []

/-- Text-content attribute (`chat.py` lines 66-67): recorded only when
`text` is present and truthy. -/
def contentAttrs (text : Option String) : List (String × AttrVal) :=
  match text with
  | some t => if t = "" then [] else [("llm.response.content", .str t)]
  | none => []

/-- Usage attributes (`chat.py` lines 107-114): each counter recorded
individually when present. -/
def usageAttrs : Option UsageMetadata → List (String × AttrVal)
  | none => []
  | some u =>
      (match u.prompt_token_count with
       | some n => [("llm.usage.prompt_tokens", AttrVal.nat n)]
       | none => []) ++
      (match u.candidates_token_count with
       | some n => [("llm.usage.completion_tokens", AttrVal.nat n)]
       | none => []) ++
      (match u.total_token_count with
       | some n => [("llm.usage.total_tokens", AttrVal.nat n)]
       | none => [])

/-- All response attributes recorded on the success path, in order. -/
def responseAttrs (r : GenerateContentResponse) : List (String × AttrVal) :=
  contentAttrs r.text ++ candidateAttrs r.candidates ++ usageAttrs r.usage_metadata

/-- The request attributes recorded before the original call (`chat.py`
lines 35-60): system tag, model, stringified contents (first positional
argument, else the `contents` keyword, else the empty default), then the
tools attributes. -/
def requestAttrs (self : GeminiModel) (args : List PyVal) (kwargs : KwArgs) :
    List (String × AttrVal) :=
  let model := self.model_name.getD "unknown"
  let contents :=
    match args with
    | a :: _ => a
    | [] => kwGet kwargs "contents" (.plist .nil)
  [("llm.system", .str "gemini"),
   ("llm.request.model", .str model),
   ("llm.request.messages", .str (pyStr contents))] ++
    toolsAttrs (kwGet kwargs "tools" (.plist .nil))

/-- The wrapper installed over `GenerativeModel.generate_content`
(`chat.py` lines 34-122), parametrized by the original implementation.
It returns the finished span and the call outcome: on success the original
result with status OK; on failure the span records the exception, the
status is ERROR with the exception's message, and the same exception is
re-raised. -/
def wrapped_generate_content
    (orig : GeminiModel → List PyVal → KwArgs → Except PyExc GenerateContentResponse)
    (self : GeminiModel) (args : List PyVal) (kwargs : KwArgs) :
    Span × Except PyExc GenerateContentResponse :=
  let model := self.model_name.getD "unknown"
  let span_name := "gemini.chat.generate_content " ++ model
  match orig self args kwargs with
  | .ok response =>
      ({ name := span_name,
         attributes := requestAttrs self args kwargs ++ responseAttrs response,
         recorded_exceptions := [],
         status := .ok }, .ok response)
  | .error e =>
      ({ name := span_name,
         attributes := requestAttrs self args kwargs,
         recorded_exceptions := [e],
         status := .error e.msg }, .error e)

/-- Lookup in a Python dict, first entry wins. -/
def dictLookup (key : String) : PyValDict → Option PyVal
  | .nil => none
  | .cons k v tl => if k = key then some v else dictLookup key tl

/-- The entries of a dict value (empty for non-dicts). -/
def entriesOf : PyVal → PyValDict
  | .pdict d => d
  | .pnone => .nil
  | .pstr _ => .nil
  | .pint _ => .nil
  | .plist _ => .nil
  | .pobj _ => .nil

/-- Spec-side description of an optional record field recorded "in its
string form, only when present" (and truthy). -/
def optStrIfTruthy : Option PyVal → Option PyVal
  | some v => if truthy v then some (.pstr (pyStr v)) else none
  | none => none

/-- Spec-side description of the `arguments` entry of a function-call
record: JSON-serialized when structured (falling back to the string
representation on serialization failure), the plain string representation
otherwise, and null when absent. -/
def argumentsSpec : Option PyVal → PyVal
  | none => .pnone
  | some v =>
      match v with
      | .plist xs => .pstr (dumpsOrStr (.plist xs))
      | .pdict xs => .pstr (dumpsOrStr (.pdict xs))
      | .pnone => .pstr (pyStr .pnone)
      | .pstr s => .pstr (pyStr (.pstr s))
      | .pint n => .pstr (pyStr (.pint n))
      | .pobj r => .pstr (pyStr (.pobj r))

/-- Errors raised by the client layer: configuration validation failures
and the not-initialized RuntimeError of `get_instance`. -/
inductive ClientError : Type where
  | configurationError : String → ClientError
  | runtimeError : String → ClientError

/-- Connection parameters, as handed to `Config(api_key=..., api_url=...)`
after any environment fallback has been applied. -/
structure Config where
  api_key : Option String
  api_url : Option String

/-- Modelled from the spec: `src/agentbay/config.py` (class `Config` and
its `validate` method) is imported by `client.py` but absent from the
sources. Per the spec, validation "fails closed (raises) if either is
missing/empty", with a ConfigurationError "identifying which field is
missing". -/
def Config.validate (c : Config) : Except ClientError Unit :=
  match c.api_key with
  | none => .error (.configurationError "api_key is missing")
  | some k =>
      if k = "" then .error (.configurationError "api_key is missing")
      else
        match c.api_url with
        | none => .error (.configurationError "api_url is missing")
        | some u =>
            if u = "" then .error (.configurationError "api_url is missing")
            else .ok ()

/-- The AgentBay client instance (`client.py` lines 17-43): it holds its
config and the exporter endpoint and auth header it was built with. -/
structure AgentBay where
  config : Config
  endpoint : String
  auth_header : String

/-- Observable side effects of constructing an AgentBay instance, in
order: exporter construction, processor registration, global provider
installation. -/
inductive Effect : Type where
  | exporterConstructed : String → String → Effect
  | processorAdded : Effect
  | providerInstalled : Effect

/-- The `AgentBay.__init__` constructor (`client.py` lines 17-43): builds
the exporter at `{api_url}/api/v1/traces` with a bearer-token header and
returns the instance together with its effect trace. -/
def mkAgentBay (config : Config) : AgentBay × List Effect :=
  let endpoint := (config.api_url.getD "") ++ "/api/v1/traces"
  let auth := "Bearer " ++ (config.api_key.getD "")
  ({ config := config, endpoint := endpoint, auth_header := auth },
   [.exporterConstructed endpoint auth, .processorAdded, .providerInstalled])

/-- The `AgentBay.initialize` classmethod (`client.py` lines 45-54), with
the class-level `_instance` passed as explicit state. Validation failure
propagates before any constructor effect happens and leaves the state
unchanged; on success the fresh instance is stored and returned. -/
def AgentBay.initialize (st : Option AgentBay) (api_key api_url : Option String) :
    Option AgentBay × List Effect × Except ClientError AgentBay :=
  match Config.validate { api_key := api_key, api_url := api_url } with
  | .error e => (st, [], .error e)
  | .ok _ =>
      let p := mkAgentBay { api_key := api_key, api_url := api_url }
      (some p.1, p.2, .ok p.1)

/-- The `AgentBay.get_instance` classmethod (`client.py` lines 56-66):
raises a RuntimeError when `_instance` is unset, else returns it; it does
not modify any state. -/
def AgentBay.get_instance (st : Option AgentBay) : Except ClientError AgentBay :=
  match st with
  | none =>
      .error (.runtimeError
        "AgentBay is not initialized. Please call `agentbay.init(api_key=...)` first.")
  | some inst => .ok inst

/-- The span produced by one intercepted call. -/
def spanOf (orig : GeminiModel → List PyVal → KwArgs → Except PyExc GenerateContentResponse)
    (self : GeminiModel) (args : List PyVal) (kwargs : KwArgs) : Span :=
  ( wrapped_generate_content orig self args kwargs).1

/-- The outcome observed by the caller of the wrapped method. -/
def resultOf (orig : GeminiModel → List PyVal → KwArgs → Except PyExc GenerateContentResponse)
    (self : GeminiModel) (args : List PyVal) (kwargs : KwArgs) :
    Except PyExc GenerateContentResponse :=
  ( wrapped_generate_content orig self args kwargs).2

/-- A response with every optional field absent. -/
def respEmpty : GenerateContentResponse :=
  { text := none, candidates := [], usage_metadata := none }

/-- An original implementation succeeding with a fixed response. -/
def origOk (r : GenerateContentResponse) :
    GeminiModel → List PyVal → KwArgs → Except PyExc GenerateContentResponse :=
  fun _ _ _ => .ok r

/-- An original implementation failing with a fixed exception. -/
def origFail (e : PyExc) :
    GeminiModel → List PyVal → KwArgs → Except PyExc GenerateContentResponse :=
  fun _ _ _ => .error e

/-- The response of the spec's success scenario: text "hi" and usage
counters prompt 3, completion 2, total 5. -/
def respScenario : GenerateContentResponse :=
  { text := some "hi",
    candidates := [],
    usage_metadata :=
      some { prompt_token_count := some 3,
             candidates_token_count := some 2,
             total_token_count := some 5 } }

/-- The client instance built from the valid scenario config. -/
def instScenario : AgentBay :=
  (mkAgentBay { api_key := some "k", api_url := some "https://host" }).1

/-- Two concrete function-call records: one fully structured, one with an
absent name, a non-serializable arguments object and an error. -/
def fcsW : List FuncCall :=
  [{ name := some (.pstr "search"),
     arguments := some (.pdict (.cons "q" (.pstr "cats") .nil)),
     response := some (.pstr "ok"),
     error := none },
   { name := none,
     arguments := some (.pobj "<Args>"),
     response := none,
     error := some (.pstr "boom") }]

/-- A response whose single candidate carries `fcsW`. -/
def respW : GenerateContentResponse :=
  { text := none,
    candidates := [{ function_calls := some fcsW }],
    usage_metadata := none }

theorem lookupAttr_append_none {k : String} {xs : List (String × AttrVal)}
    (h : lookupAttr k xs = none) (ys : List (String × AttrVal)) :
    lookupAttr k (xs ++ ys) = lookupAttr k ys := by
  induction xs with
  | nil => simp
  | cons p tl ih =>
      obtain ⟨a, b⟩ := p
      by_cases hak : a = k
      · simp [lookupAttr, hak] at h
      · simp only [lookupAttr, List.cons_append, if_neg hak] at h ⊢
        exact ih h

theorem lookupAttr_append_some {k : String} {xs : List (String × AttrVal)} {v : AttrVal}
    (h : lookupAttr k xs = some v) (ys : List (String × AttrVal)) :
    lookupAttr k (xs ++ ys) = some v := by
  induction xs with
  | nil => simp [lookupAttr] at h
  | cons p tl ih =>
      obtain ⟨a, b⟩ := p
      by_cases hak : a = k
      · simp only [lookupAttr, if_pos hak] at h
        simp only [List.cons_append, lookupAttr, if_pos hak]
        exact h
      · simp only [lookupAttr, if_neg hak] at h
        simp only [List.cons_append, lookupAttr, if_neg hak]
        exact ih h

theorem lookupAttr_toolsAttrs_none {k : String}
    (h1 : k ≠ "llm.request.tools") (h2 : k ≠ "llm.request.tool_count")
    (tools : PyVal) :
    lookupAttr k (toolsAttrs tools) = none := by
  unfold toolsAttrs
  split
  · cases tools <;>
      simp [lookupAttr, if_neg (Ne.symm h1), if_neg (Ne.symm h2)]
  · rfl

theorem lookupAttr_requestAttrs_none {k : String}
    (h1 : k ≠ "llm.system") (h2 : k ≠ "llm.request.model")
    (h3 : k ≠ "llm.request.messages") (h4 : k ≠ "llm.request.tools")
    (h5 : k ≠ "llm.request.tool_count")
    (self : GeminiModel) (args : List PyVal) (kwargs : KwArgs) :
    lookupAttr k (requestAttrs self args kwargs) = none := by
  unfold requestAttrs
  simp only [List.cons_append, List.nil_append, lookupAttr,
    if_neg (Ne.symm h1), if_neg (Ne.symm h2), if_neg (Ne.symm h3)]
  exact lookupAttr_toolsAttrs_none h4 h5 _

theorem lookupAttr_contentAttrs_none {k : String}
    (h : k ≠ "llm.response.content") (t : Option String) :
    lookupAttr k (contentAttrs t) = none := by
  cases t with
  | none => rfl
  | some s =>
      by_cases hs : s = "" <;>
        simp [contentAttrs, hs, lookupAttr, if_neg (Ne.symm h)]

theorem lookupAttr_candidateAttrs_none {k : String}
    (h1 : k ≠ "llm.response.function_calls")
    (h2 : k ≠ "llm.response.function_call_count")
    (cs : List Candidate) :
    lookupAttr k (candidateAttrs cs) = none := by
  cases cs with
  | nil => rfl
  | cons c tl =>
      cases hfc : c.function_calls with
      | none => simp [candidateAttrs, hfc, lookupAttr]
      | some fcs =>
          by_cases he : fcs.isEmpty <;>
            simp [candidateAttrs, hfc, he, funcCallAttrs, lookupAttr,
              if_neg (Ne.symm h1), if_neg (Ne.symm h2)]

theorem lookupAttr_usageAttrs_none {k : String}
    (h1 : k ≠ "llm.usage.prompt_tokens")
    (h2 : k ≠ "llm.usage.completion_tokens")
    (h3 : k ≠ "llm.usage.total_tokens")
    (u : Option UsageMetadata) :
    lookupAttr k (usageAttrs u) = none := by
  cases u with
  | none => rfl
  | some um =>
      obtain ⟨p, c, t⟩ := um
      cases p <;> cases c <;> cases t <;>
        simp [usageAttrs, lookupAttr,
          if_neg (Ne.symm h1), if_neg (Ne.symm h2), if_neg (Ne.symm h3)]

/-- C1: when the original implementation raises an exception, the wrapper
records that exception on the span, sets the span status to ERROR with the
exception's message, and re-raises the very same exception, so the caller
observes exactly the failure the unwrapped call would produce. -/
theorem C1_error_transparent
    (orig : GeminiModel → List PyVal → KwArgs → Except PyExc GenerateContentResponse)
    (self : GeminiModel) (args : List PyVal) (kwargs : KwArgs) (e : PyExc)
    (h : orig self args kwargs = .error e) :
    resultOf orig self args kwargs = .error e ∧
    (spanOf orig self args kwargs).recorded_exceptions = [e] ∧
    (spanOf orig self args kwargs).status = .error e.msg := by
  simp [resultOf, spanOf, wrapped_generate_content, h]

/-- C1 witness: a concrete call whose original raises
ValueError("quota exceeded"). -/
theorem C1_error_transparent_witness :
    resultOf (origFail ⟨"ValueError", "quota exceeded"⟩)
        ⟨some "gemini-pro"⟩ [.pstr "hello"] [] =
      .error ⟨"ValueError", "quota exceeded"⟩ ∧
    (spanOf (origFail ⟨"ValueError", "quota exceeded"⟩)
        ⟨some "gemini-pro"⟩ [.pstr "hello"] []).recorded_exceptions =
      [⟨"ValueError", "quota exceeded"⟩] ∧
    (spanOf (origFail ⟨"ValueError", "quota exceeded"⟩)
        ⟨some "gemini-pro"⟩ [.pstr "hello"] []).status =
      .error "quota exceeded" :=
  C1_error_transparent (origFail ⟨"ValueError", "quota exceeded"⟩)
    ⟨some "gemini-pro"⟩ [.pstr "hello"] [] ⟨"ValueError", "quota exceeded"⟩ rfl

/-- C2: when the original implementation succeeds, the wrapper returns its
result unchanged; since this holds for every original implementation and
every argument list, the wrapper is transparent to the call's value. -/
theorem C2_success_transparent
    (orig : GeminiModel → List PyVal → KwArgs → Except PyExc GenerateContentResponse)
    (self : GeminiModel) (args : List PyVal) (kwargs : KwArgs)
    (r : GenerateContentResponse)
    (h : orig self args kwargs = .ok r) :
    resultOf orig self args kwargs = .ok r := by
  simp [resultOf, wrapped_generate_content, h]

/-- C2 witness: a concrete successful call returns the original result. -/
theorem C2_success_transparent_witness :
    resultOf (origOk respScenario) ⟨some "gemini-pro"⟩ [.pstr "hello"] [] =
      .ok respScenario :=
  C2_success_transparent (origOk respScenario)
    ⟨some "gemini-pro"⟩ [.pstr "hello"] [] respScenario rfl

/-- C4: the spec's success scenario — model "gemini-pro", content "hello",
response text "hi", usage 3/2/5 — produces the span with status OK, the
expected name, and the six expected attributes. -/
theorem C4_success_scenario :
    (spanOf (origOk respScenario) ⟨some "gemini-pro"⟩ [.pstr "hello"] []).status =
      .ok ∧
    (spanOf (origOk respScenario) ⟨some "gemini-pro"⟩ [.pstr "hello"] []).name =
      "gemini.chat.generate_content gemini-pro" ∧
    lookupAttr "llm.request.model"
      (spanOf (origOk respScenario) ⟨some "gemini-pro"⟩ [.pstr "hello"] []).attributes =
      some (.str "gemini-pro") ∧
    lookupAttr "llm.request.messages"
      (spanOf (origOk respScenario) ⟨some "gemini-pro"⟩ [.pstr "hello"] []).attributes =
      some (.str "hello") ∧
    lookupAttr "llm.response.content"
      (spanOf (origOk respScenario) ⟨some "gemini-pro"⟩ [.pstr "hello"] []).attributes =
      some (.str "hi") ∧
    lookupAttr "llm.usage.prompt_tokens"
      (spanOf (origOk respScenario) ⟨some "gemini-pro"⟩ [.pstr "hello"] []).attributes =
      some (.nat 3) ∧
    lookupAttr "llm.usage.completion_tokens"
      (spanOf (origOk respScenario) ⟨some "gemini-pro"⟩ [.pstr "hello"] []).attributes =
      some (.nat 2) ∧
    lookupAttr "llm.usage.total_tokens"
      (spanOf (origOk respScenario) ⟨some "gemini-pro"⟩ [.pstr "hello"] []).attributes =
      some (.nat 5) :=
  ⟨rfl, rfl, rfl, rfl, rfl, rfl, rfl, rfl⟩

/-- C10: the response attributes — in particular the function-call
attributes — depend only on the first candidate: any later candidates are
ignored. -/
theorem C10_only_first_candidate
    (r : GenerateContentResponse) (c0 : Candidate) (rest : List Candidate) :
    responseAttrs { r with candidates := c0 :: rest } =
    responseAttrs { r with candidates := [c0] } := rfl

theorem funcDataOf_fields (fc : FuncCall) :
    dictLookup "name" (entriesOf (funcDataOf fc)) = some (fc.name.getD .pnone) ∧
    dictLookup "arguments" (entriesOf (funcDataOf fc)) = some (argumentsSpec fc.arguments) ∧
    dictLookup "response" (entriesOf (funcDataOf fc)) = optStrIfTruthy fc.response ∧
    dictLookup "error" (entriesOf (funcDataOf fc)) = optStrIfTruthy fc.error := by
  obtain ⟨n, a, resp, err⟩ := fc
  refine ⟨rfl, ?_, ?_, ?_⟩
  · cases a with
    | none => rfl
    | some v => cases v <;> rfl
  · cases resp with
    | none =>
        cases err with
        | none => rfl
        | some w =>
            cases hw : truthy w <;>
              simp [funcDataOf, entriesOf, dictLookup, optStrIfTruthy, hw]
    | some v =>
        cases hv : truthy v with
        | true => simp [funcDataOf, entriesOf, dictLookup, optStrIfTruthy, hv]
        | false =>
            cases err with
            | none => simp [funcDataOf, entriesOf, dictLookup, optStrIfTruthy, hv]
            | some w =>
                cases hw : truthy w <;>
                  simp [funcDataOf, entriesOf, dictLookup, optStrIfTruthy, hv, hw]
  · cases err with
    | none =>
        cases resp with
        | none => rfl
        | some v =>
            cases hv : truthy v <;>
              simp [funcDataOf, entriesOf, dictLookup, optStrIfTruthy, hv]
    | some w =>
        cases hw : truthy w <;> cases resp with
        | none =>
            simp [funcDataOf, entriesOf, dictLookup, optStrIfTruthy, hw]
        | some v =>
            cases hv : truthy v <;>
              simp [funcDataOf, entriesOf, dictLookup, optStrIfTruthy, hw, hv]

/-- C3: a successful response lacking every optional field — no text, no
function calls under any candidate, no usage metadata — yields a span in
which all six optional attributes are absent, and the call still succeeds. -/
theorem C3_optional_fields_absent
    (orig : GeminiModel → List PyVal → KwArgs → Except PyExc GenerateContentResponse)
    (self : GeminiModel) (args : List PyVal) (kwargs : KwArgs)
    (r : GenerateContentResponse)
    (hok : orig self args kwargs = .ok r)
    (htext : r.text = none)
    (hfc : ∀ c ∈ r.candidates, c.function_calls = none)
    (husage : r.usage_metadata = none) :
    resultOf orig self args kwargs = .ok r ∧
    lookupAttr "llm.response.content" (spanOf orig self args kwargs).attributes = none ∧
    lookupAttr "llm.response.function_calls" (spanOf orig self args kwargs).attributes = none ∧
    lookupAttr "llm.response.function_call_count" (spanOf orig self args kwargs).attributes = none ∧
    lookupAttr "llm.usage.prompt_tokens" (spanOf orig self args kwargs).attributes = none ∧
    lookupAttr "llm.usage.completion_tokens" (spanOf orig self args kwargs).attributes = none ∧
    lookupAttr "llm.usage.total_tokens" (spanOf orig self args kwargs).attributes = none := by
  have hcand : candidateAttrs r.candidates = [] := by
    cases hc : r.candidates with
    | nil => rfl
    | cons c tl => simp [candidateAttrs, hfc c (hc ▸ List.mem_cons_self c tl)]
  have hresp : responseAttrs r = [] := by
    simp [responseAttrs, htext, husage, hcand, contentAttrs, usageAttrs]
  have hattrs : (spanOf orig self args kwargs).attributes = requestAttrs self args kwargs := by
    simp [spanOf, wrapped_generate_content, hok, hresp]
  refine ⟨by simp [resultOf, wrapped_generate_content, hok], ?_, ?_, ?_, ?_, ?_, ?_⟩ <;>
    · rw [hattrs]
      exact lookupAttr_requestAttrs_none (by decide) (by decide) (by decide)
        (by decide) (by decide) _ _ _

/-- C3 witness: a concrete success with the all-absent response. -/
theorem C3_optional_fields_absent_witness :
    resultOf (origOk respEmpty) ⟨some "gemini-pro"⟩ [.pstr "hello"] [] = .ok respEmpty ∧
    lookupAttr "llm.response.content"
      (spanOf (origOk respEmpty) ⟨some "gemini-pro"⟩ [.pstr "hello"] []).attributes = none ∧
    lookupAttr "llm.response.function_calls"
      (spanOf (origOk respEmpty) ⟨some "gemini-pro"⟩ [.pstr "hello"] []).attributes = none ∧
    lookupAttr "llm.response.function_call_count"
      (spanOf (origOk respEmpty) ⟨some "gemini-pro"⟩ [.pstr "hello"] []).attributes = none ∧
    lookupAttr "llm.usage.prompt_tokens"
      (spanOf (origOk respEmpty) ⟨some "gemini-pro"⟩ [.pstr "hello"] []).attributes = none ∧
    lookupAttr "llm.usage.completion_tokens"
      (spanOf (origOk respEmpty) ⟨some "gemini-pro"⟩ [.pstr "hello"] []).attributes = none ∧
    lookupAttr "llm.usage.total_tokens"
      (spanOf (origOk respEmpty) ⟨some "gemini-pro"⟩ [.pstr "hello"] []).attributes = none :=
  C3_optional_fields_absent (origOk respEmpty) ⟨some "gemini-pro"⟩ [.pstr "hello"] []
    respEmpty rfl rfl (by simp [respEmpty]) rfl

/-- C9: presence alone is not enough — a present-but-falsy response text
(the empty string) yields no llm.response.content attribute, and a
supplied-but-falsy tools value yields neither llm.request.tools nor
llm.request.tool_count. -/
theorem C9_falsy_values_not_recorded
    (orig : GeminiModel → List PyVal → KwArgs → Except PyExc GenerateContentResponse)
    (self : GeminiModel) (args : List PyVal) (kwargs : KwArgs)
    (r : GenerateContentResponse)
    (hok : orig self args kwargs = .ok r)
    (htext : r.text = some "")
    (htools : truthy (kwGet kwargs "tools" (.plist .nil)) = false) :
    lookupAttr "llm.response.content" (spanOf orig self args kwargs).attributes = none ∧
    lookupAttr "llm.request.tools" (spanOf orig self args kwargs).attributes = none ∧
    lookupAttr "llm.request.tool_count" (spanOf orig self args kwargs).attributes = none := by
  have hattrs : (spanOf orig self args kwargs).attributes =
      requestAttrs self args kwargs ++ responseAttrs r := by
    simp [spanOf, wrapped_generate_content, hok]
  have htoolsAttrs : toolsAttrs (kwGet kwargs "tools" (.plist .nil)) = [] := by
    unfold toolsAttrs
    rw [if_neg]
    simp [htools]
  refine ⟨?_, ?_, ?_⟩
  · rw [hattrs,
      lookupAttr_append_none (lookupAttr_requestAttrs_none (by decide) (by decide)
        (by decide) (by decide) (by decide) _ _ _)]
    unfold responseAttrs
    rw [htext]
    have hcontent : lookupAttr "llm.response.content" (contentAttrs (some "")) = none := rfl
    have hcc : lookupAttr "llm.response.content"
        (contentAttrs (some "") ++ candidateAttrs r.candidates) = none := by
      rw [lookupAttr_append_none hcontent]
      exact lookupAttr_candidateAttrs_none (by decide) (by decide) _
    rw [lookupAttr_append_none hcc]
    exact lookupAttr_usageAttrs_none (by decide) (by decide) (by decide) _
  · rw [hattrs]
    have hreq : lookupAttr "llm.request.tools" (requestAttrs self args kwargs) = none := by
      unfold requestAttrs
      simp only [List.cons_append, List.nil_append, lookupAttr,
        if_neg (by decide : ¬ "llm.system" = "llm.request.tools"),
        if_neg (by decide : ¬ "llm.request.model" = "llm.request.tools"),
        if_neg (by decide : ¬ "llm.request.messages" = "llm.request.tools")]
      rw [htoolsAttrs]
      rfl
    rw [lookupAttr_append_none hreq]
    unfold responseAttrs
    have hcc : lookupAttr "llm.request.tools"
        (contentAttrs r.text ++ candidateAttrs r.candidates) = none := by
      rw [lookupAttr_append_none (lookupAttr_contentAttrs_none (by decide) _)]
      exact lookupAttr_candidateAttrs_none (by decide) (by decide) _
    rw [lookupAttr_append_none hcc]
    exact lookupAttr_usageAttrs_none (by decide) (by decide) (by decide) _
  · rw [hattrs]
    have hreq : lookupAttr "llm.request.tool_count" (requestAttrs self args kwargs) = none := by
      unfold requestAttrs
      simp only [List.cons_append, List.nil_append, lookupAttr,
        if_neg (by decide : ¬ "llm.system" = "llm.request.tool_count"),
        if_neg (by decide : ¬ "llm.request.model" = "llm.request.tool_count"),
        if_neg (by decide : ¬ "llm.request.messages" = "llm.request.tool_count")]
      rw [htoolsAttrs]
      rfl
    rw [lookupAttr_append_none hreq]
    unfold responseAttrs
    have hcc : lookupAttr "llm.request.tool_count"
        (contentAttrs r.text ++ candidateAttrs r.candidates) = none := by
      rw [lookupAttr_append_none (lookupAttr_contentAttrs_none (by decide) _)]
      exact lookupAttr_candidateAttrs_none (by decide) (by decide) _
    rw [lookupAttr_append_none hcc]
    exact lookupAttr_usageAttrs_none (by decide) (by decide) (by decide) _

/-- C9 witness: empty response text and an explicitly supplied empty tools
list record none of the three attributes. -/
theorem C9_falsy_values_not_recorded_witness :
    lookupAttr "llm.response.content"
      (spanOf (origOk { text := some "", candidates := [], usage_metadata := none })
        ⟨some "gemini-pro"⟩ [.pstr "hello"]
        [("tools", PyVal.plist .nil)]).attributes = none ∧
    lookupAttr "llm.request.tools"
      (spanOf (origOk { text := some "", candidates := [], usage_metadata := none })
        ⟨some "gemini-pro"⟩ [.pstr "hello"]
        [("tools", PyVal.plist .nil)]).attributes = none ∧
    lookupAttr "llm.request.tool_count"
      (spanOf (origOk { text := some "", candidates := [], usage_metadata := none })
        ⟨some "gemini-pro"⟩ [.pstr "hello"]
        [("tools", PyVal.plist .nil)]).attributes = none :=
  C9_falsy_values_not_recorded
    (origOk { text := some "", candidates := [], usage_metadata := none })
    ⟨some "gemini-pro"⟩ [.pstr "hello"] [("tools", PyVal.plist .nil)]
    { text := some "", candidates := [], usage_metadata := none } rfl rfl rfl

/-- C5: when the first candidate carries a non-empty function-call list,
the span stores under llm.response.function_calls the JSON serialization
(with string fallback) of the list of per-call records, stores the record
count under llm.response.function_call_count, and each record carries the
raw name (null when absent), the arguments serialized
structurally-with-string-fallback (null when absent), and the string forms
of response and error exactly when those are present and truthy. -/
theorem C5_function_call_serialization
    (orig : GeminiModel → List PyVal → KwArgs → Except PyExc GenerateContentResponse)
    (self : GeminiModel) (args : List PyVal) (kwargs : KwArgs)
    (r : GenerateContentResponse) (c0 : Candidate) (rest : List Candidate)
    (fcs : List FuncCall)
    (hok : orig self args kwargs = .ok r)
    (hcand : r.candidates = c0 :: rest)
    (hfc : c0.function_calls = some fcs)
    (hne : fcs.isEmpty = false) :
    lookupAttr "llm.response.function_calls" (spanOf orig self args kwargs).attributes =
      some (.str (dumpsOrStr (.plist (funcListData fcs)))) ∧
    lookupAttr "llm.response.function_call_count" (spanOf orig self args kwargs).attributes =
      some (.nat fcs.length) ∧
    ∀ fc ∈ fcs,
      dictLookup "name" (entriesOf (funcDataOf fc)) = some (fc.name.getD .pnone) ∧
      dictLookup "arguments" (entriesOf (funcDataOf fc)) = some (argumentsSpec fc.arguments) ∧
      dictLookup "response" (entriesOf (funcDataOf fc)) = optStrIfTruthy fc.response ∧
      dictLookup "error" (entriesOf (funcDataOf fc)) = optStrIfTruthy fc.error := by
  have hattrs : (spanOf orig self args kwargs).attributes =
      requestAttrs self args kwargs ++ responseAttrs r := by
    simp [spanOf, wrapped_generate_content, hok]
  have hcattrs : candidateAttrs r.candidates = funcCallAttrs fcs := by
    rw [hcand]
    simp [candidateAttrs, hfc, hne]
  have h1 : lookupAttr "llm.response.function_calls" (funcCallAttrs fcs) =
      some (.str (dumpsOrStr (.plist (funcListData fcs)))) := by
    simp [funcCallAttrs, lookupAttr]
  have h2 : lookupAttr "llm.response.function_call_count" (funcCallAttrs fcs) =
      some (.nat fcs.length) := by
    simp only [funcCallAttrs, lookupAttr,
      if_neg (by decide : ¬ "llm.response.function_calls" = "llm.response.function_call_count"),
      if_pos rfl]
    simp
  refine ⟨?_, ?_, fun fc _ => funcDataOf_fields fc⟩
  · rw [hattrs,
      lookupAttr_append_none (lookupAttr_requestAttrs_none (by decide) (by decide)
        (by decide) (by decide) (by decide) _ _ _)]
    unfold responseAttrs
    have hcc : lookupAttr "llm.response.function_calls"
        (contentAttrs r.text ++ candidateAttrs r.candidates) =
        some (.str (dumpsOrStr (.plist (funcListData fcs)))) := by
      rw [lookupAttr_append_none (lookupAttr_contentAttrs_none (by decide) _), hcattrs]
      exact h1
    exact lookupAttr_append_some hcc _
  · rw [hattrs,
      lookupAttr_append_none (lookupAttr_requestAttrs_none (by decide) (by decide)
        (by decide) (by decide) (by decide) _ _ _)]
    unfold responseAttrs
    have hcc : lookupAttr "llm.response.function_call_count"
        (contentAttrs r.text ++ candidateAttrs r.candidates) =
        some (.nat fcs.length) := by
      rw [lookupAttr_append_none (lookupAttr_contentAttrs_none (by decide) _), hcattrs]
      exact h2
    exact lookupAttr_append_some hcc _

/-- C5 witness: the span of a concrete call carrying `fcsW` records the
serialized record list, the count 2, and the per-record fields. -/
theorem C5_function_call_serialization_witness :
    lookupAttr "llm.response.function_calls"
      (spanOf (origOk respW) ⟨some "gemini-pro"⟩ [.pstr "hello"] []).attributes =
      some (.str (dumpsOrStr (.plist (funcListData fcsW)))) ∧
    lookupAttr "llm.response.function_call_count"
      (spanOf (origOk respW) ⟨some "gemini-pro"⟩ [.pstr "hello"] []).attributes =
      some (.nat fcsW.length) ∧
    ∀ fc ∈ fcsW,
      dictLookup "name" (entriesOf (funcDataOf fc)) = some (fc.name.getD .pnone) ∧
      dictLookup "arguments" (entriesOf (funcDataOf fc)) = some (argumentsSpec fc.arguments) ∧
      dictLookup "response" (entriesOf (funcDataOf fc)) = optStrIfTruthy fc.response ∧
      dictLookup "error" (entriesOf (funcDataOf fc)) = optStrIfTruthy fc.error :=
  C5_function_call_serialization (origOk respW) ⟨some "gemini-pro"⟩ [.pstr "hello"] []
    respW { function_calls := some fcsW } [] fcsW rfl rfl rfl rfl

/-- C6 counterexample: a call that supplies the tools argument (as the
empty, falsy list) on which no llm.request.tools or llm.request.tool_count
attribute is recorded — supplying tools alone does not make the span
record them, contrary to the claim. -/
theorem C6_counterexample_empty_tools :
    kwGet [("tools", PyVal.plist .nil)] "tools" (.plist .nil) = PyVal.plist .nil ∧
    lookupAttr "llm.request.tools"
      (spanOf (origOk respEmpty) ⟨some "gemini-pro"⟩ [.pstr "hello"]
        [("tools", PyVal.plist .nil)]).attributes = none ∧
    lookupAttr "llm.request.tool_count"
      (spanOf (origOk respEmpty) ⟨some "gemini-pro"⟩ [.pstr "hello"]
        [("tools", PyVal.plist .nil)]).attributes = none :=
  ⟨rfl, rfl, rfl⟩

/-- C6 amended: for every intercepted call whose tools value is truthy
(for instance a non-empty list), the span records llm.request.tools —
JSON-serialized for lists/dicts with fallback to the string representation,
plain string representation otherwise — and, when the tools value is a
list, llm.request.tool_count with its length. -/
theorem C6_amended_truthy_tools_recorded
    (orig : GeminiModel → List PyVal → KwArgs → Except PyExc GenerateContentResponse)
    (self : GeminiModel) (args : List PyVal) (kwargs : KwArgs)
    (htruthy : truthy (kwGet kwargs "tools" (.plist .nil)) = true) :
    lookupAttr "llm.request.tools" (spanOf orig self args kwargs).attributes =
      some (.str (match kwGet kwargs "tools" (.plist .nil) with
                  | .plist xs => dumpsOrStr (.plist xs)
                  | .pdict xs => dumpsOrStr (.pdict xs)
                  | t => pyStr t)) ∧
    (∀ xs, kwGet kwargs "tools" (.plist .nil) = .plist xs →
      lookupAttr "llm.request.tool_count" (spanOf orig self args kwargs).attributes =
        some (.nat xs.length)) := by
  have hreq1 : lookupAttr "llm.request.tools" (requestAttrs self args kwargs) =
      some (.str (match kwGet kwargs "tools" (.plist .nil) with
                  | .plist xs => dumpsOrStr (.plist xs)
                  | .pdict xs => dumpsOrStr (.pdict xs)
                  | t => pyStr t)) := by
    unfold requestAttrs toolsAttrs
    simp only [List.cons_append, List.nil_append, lookupAttr,
      if_neg (by decide : ¬ "llm.system" = "llm.request.tools"),
      if_neg (by decide : ¬ "llm.request.model" = "llm.request.tools"),
      if_neg (by decide : ¬ "llm.request.messages" = "llm.request.tools")]
    rw [if_pos htruthy]
    cases hkw : kwGet kwargs "tools" (.plist .nil) <;> simp [lookupAttr]
  have hreq2 : ∀ xs, kwGet kwargs "tools" (.plist .nil) = .plist xs →
      lookupAttr "llm.request.tool_count" (requestAttrs self args kwargs) =
        some (.nat xs.length) := by
    intro xs hkw
    unfold requestAttrs toolsAttrs
    simp only [List.cons_append, List.nil_append, lookupAttr,
      if_neg (by decide : ¬ "llm.system" = "llm.request.tool_count"),
      if_neg (by decide : ¬ "llm.request.model" = "llm.request.tool_count"),
      if_neg (by decide : ¬ "llm.request.messages" = "llm.request.tool_count")]
    rw [if_pos htruthy, hkw]
    simp [lookupAttr,
      if_neg (by decide : ¬ "llm.request.tools" = "llm.request.tool_count")]
  cases horig : orig self args kwargs with
  | ok r =>
      have hattrs : (spanOf orig self args kwargs).attributes =
          requestAttrs self args kwargs ++ responseAttrs r := by
        simp [spanOf, wrapped_generate_content, horig]
      exact ⟨by rw [hattrs]; exact lookupAttr_append_some hreq1 _,
        fun xs hkw => by rw [hattrs]; exact lookupAttr_append_some (hreq2 xs hkw) _⟩
  | error e =>
      have hattrs : (spanOf orig self args kwargs).attributes =
          requestAttrs self args kwargs := by
        simp [spanOf, wrapped_generate_content, horig]
      exact ⟨by rw [hattrs]; exact hreq1,
        fun xs hkw => by rw [hattrs]; exact hreq2 xs hkw⟩

/-- C6 amended witness: a non-empty tools list is recorded with its JSON
serialization and its length. -/
theorem C6_amended_truthy_tools_recorded_witness :
    lookupAttr "llm.request.tools"
      (spanOf (origOk respEmpty) ⟨some "gemini-pro"⟩ [.pstr "hello"]
        [("tools", PyVal.plist (.cons (.pstr "search") .nil))]).attributes =
      some (.str (match kwGet [("tools", PyVal.plist (.cons (.pstr "search") .nil))]
                    "tools" (.plist .nil) with
                  | .plist xs => dumpsOrStr (.plist xs)
                  | .pdict xs => dumpsOrStr (.pdict xs)
                  | t => pyStr t)) ∧
    (∀ xs, kwGet [("tools", PyVal.plist (.cons (.pstr "search") .nil))]
        "tools" (.plist .nil) = .plist xs →
      lookupAttr "llm.request.tool_count"
        (spanOf (origOk respEmpty) ⟨some "gemini-pro"⟩ [.pstr "hello"]
          [("tools", PyVal.plist (.cons (.pstr "search") .nil))]).attributes =
        some (.nat xs.length)) :=
  C6_amended_truthy_tools_recorded (origOk respEmpty) ⟨some "gemini-pro"⟩
    [.pstr "hello"] [("tools", PyVal.plist (.cons (.pstr "search") .nil))] rfl

/-- C7: `get_instance` fails with the not-initialized RuntimeError when
`initialize` was never successfully called, and after any successful
`initialize` the stored singleton is exactly the returned instance, which
`get_instance` then returns without side effects. -/
theorem C7_singleton_access
    (st : Option AgentBay) (k u : Option String)
    (st2 : Option AgentBay) (effs : List Effect) (inst : AgentBay)
    (h : AgentBay.initialize st k u = (st2, effs, .ok inst)) :
    AgentBay.get_instance (none : Option AgentBay) =
      .error (.runtimeError
        "AgentBay is not initialized. Please call `agentbay.init(api_key=...)` first.") ∧
    st2 = some inst ∧
    AgentBay.get_instance st2 = .ok inst := by
  refine ⟨rfl, ?_⟩
  unfold AgentBay.initialize at h
  cases hv : Config.validate { api_key := k, api_url := u } with
  | error e =>
      rw [hv] at h
      simp at h
  | ok unitv =>
      rw [hv] at h
      simp only [Prod.mk.injEq, Except.ok.injEq] at h
      obtain ⟨h1, -, h3⟩ := h
      subst h3
      subst h1
      exact ⟨rfl, rfl⟩

/-- C7 witness: a concrete valid initialization stores and returns the
same instance. -/
theorem C7_singleton_access_witness :
    AgentBay.get_instance (none : Option AgentBay) =
      .error (.runtimeError
        "AgentBay is not initialized. Please call `agentbay.init(api_key=...)` first.") ∧
    some instScenario = some instScenario ∧
    AgentBay.get_instance (some instScenario) = .ok instScenario :=
  C7_singleton_access none (some "k") (some "https://host") (some instScenario)
    (mkAgentBay { api_key := some "k", api_url := some "https://host" }).2
    instScenario rfl

/-- C8: whenever api_key or api_url resolves to missing or empty,
`initialize` raises a ConfigurationError, performs no constructor effect
(no exporter, processor or provider is built), leaves the singleton state
unchanged, and when the singleton was unset a subsequent `get_instance`
still fails. -/
theorem C8_invalid_config_rejected
    (st : Option AgentBay) (k u : Option String)
    (hbad : k = none ∨ k = some "" ∨ u = none ∨ u = some "") :
    (∃ m, AgentBay.initialize st k u = (st, [], .error (.configurationError m))) ∧
    (st = none →
      ∃ m2, AgentBay.get_instance ( AgentBay.initialize st k u).1 =
        .error (.runtimeError m2)) := by
  have hval : ∃ m, Config.validate { api_key := k, api_url := u } =
      .error (.configurationError m) := by
    rcases hbad with h | h | h | h
    · subst h; exact ⟨"api_key is missing", rfl⟩
    · subst h; exact ⟨"api_key is missing", rfl⟩
    · subst h
      cases k with
      | none => exact ⟨"api_key is missing", rfl⟩
      | some s =>
          by_cases hs : s = ""
          · subst hs; exact ⟨"api_key is missing", rfl⟩
          · exact ⟨"api_url is missing", by simp [Config.validate, hs]⟩
    · subst h
      cases k with
      | none => exact ⟨"api_key is missing", rfl⟩
      | some s =>
          by_cases hs : s = ""
          · subst hs; exact ⟨"api_key is missing", rfl⟩
          · exact ⟨"api_url is missing", by simp [Config.validate, hs]⟩
  obtain ⟨m, hm⟩ := hval
  have hinit : AgentBay.initialize st k u = (st, [], .error (.configurationError m)) := by
    unfold AgentBay.initialize
    rw [hm]
  refine ⟨⟨m, hinit⟩, ?_⟩
  intro hst
  subst hst
  rw [hinit]
  exact ⟨"AgentBay is not initialized. Please call `agentbay.init(api_key=...)` first.", rfl⟩

/-- C8 witness: a missing api_key is rejected with no effects and the
singleton stays unset. -/
theorem C8_invalid_config_rejected_witness :
    (∃ m, AgentBay.initialize (none : Option AgentBay) none (some "https://host") =
      (none, [], .error (.configurationError m))) ∧
    ((none : Option AgentBay) = none →
      ∃ m2, AgentBay.get_instance
        ( AgentBay.initialize (none : Option AgentBay) none (some "https://host")).1 =
        .error (.runtimeError m2)) :=
  C8_invalid_config_rejected none none (some "https://host") (Or.inl rfl)

end Agentbay
